import Mathlib

/-!
Verification of the lifecycle-gate runner (`scripts/run-lifecycle-gates.py`).

Shallow embedding: a parsed YAML document is a `Yaml` value (mappings keep
key insertion order, matching Python dict iteration order); the loader,
gate validator and stage resolver are translated directly from the source;
`main_run` models `main()` with the file system abstracted as an
`Option Yaml` (parsed document, or `none` when the config file is missing)
and subprocess execution abstracted as an oracle
`exec : Nat → List String → Int` giving the exit status of the n-th
launched child process running a given command.  `main_run` returns the
process exit code together with the ordered trace of launched gate
subprocesses, the structural error (if any), and the printed summary.
-/

namespace LifecycleGates

/-- Parsed YAML value.  Mappings are ordered association lists over string
keys, mirroring Python `dict` insertion order; the runner only ever looks
up string keys. -/
inductive Yaml where
  | null
  | bool (b : Bool)
  | int (n : Int)
  | str (s : String)
  | arr (xs : List Yaml)
  | map (kvs : List (String × Yaml))
deriving Repr

/-- First binding of `k` in an association list (Python dicts have unique
keys, so first-match lookup agrees with `dict.get`). -/
def lookup? (kvs : List (String × Yaml)) (k : String) : Option Yaml :=
  match kvs with
  | [] => none
  | (k2, v) :: rest => if k2 = k then some v else lookup? rest k

/-- Python `d.get(k)` / `k in d` style lookup: `none` when the value is not
a mapping or the key is absent. -/
def Yaml.get? : Yaml → String → Option Yaml
  | .map kvs, k => lookup? kvs k
  | _, _ => none

/-- Python `d.get(k, default)`. -/
def Yaml.getKD (y : Yaml) (k : String) (d : Yaml) : Yaml := (y.get? k).getD d

/-- `isinstance(v, dict)`. -/
def Yaml.isMap : Yaml → Bool
  | .map _ => true
  | _ => false

/-- `isinstance(v, str)`. -/
def Yaml.isStr : Yaml → Bool
  | .str _ => true
  | _ => false

/-- The underlying association list of a mapping (the runner only applies
this to values already checked to be mappings). -/
def Yaml.asMap : Yaml → List (String × Yaml)
  | .map kvs => kvs
  | _ => []

/-- The string elements of a YAML list (the runner only applies this to
values already checked to be lists of strings). -/
def Yaml.asStrList : Yaml → List String
  | .arr xs => xs.filterMap fun x => match x with | .str s => some s | _ => none
  | _ => []

/-- `k in data and isinstance(data[k], dict)`. -/
def hasMapAt (d : Yaml) (k : String) : Bool :=
  match d.get? k with
  | some (.map _) => true
  | _ => false

/-- `k in data and isinstance(data[k], str)`. -/
def hasStrAt (d : Yaml) (k : String) : Bool :=
  match d.get? k with
  | some (.str _) => true
  | _ => false

/-- `isinstance(v, list) and v and all(isinstance(c, str) for c in v)`. -/
def isNonEmptyStrList : Yaml → Bool
  | .arr xs => !xs.isEmpty && xs.all Yaml.isStr
  | _ => false

/-- `isinstance(v, list) and all(isinstance(g, str) for g in v)`. -/
def isStrList : Yaml → Bool
  | .arr xs => xs.all Yaml.isStr
  | _ => false

/-- The distinct `ValueError` raise sites of the runner.  Spec taxonomy:
`configNotFound` = ConfigNotFound; `notAMapping`, `missingStages`,
`missingGates`, `missingCurrentStage` = InvalidConfig; `gateNotAMapping`,
`invalidGateCommand` = InvalidGateDefinition; `unknownStage` =
UnknownStage; `invalidRequiredGates` = InvalidStageDefinition. -/
inductive GateError where
  | configNotFound
  | notAMapping
  | missingStages
  | missingGates
  | missingCurrentStage
  | gateNotAMapping (gate : String)
  | invalidGateCommand (gate : String)
  | unknownStage (stage : String)
  | invalidRequiredGates (stage : String)
deriving Repr, DecidableEq

/-- `load_config(path)`: `doc` is `none` when the file does not exist,
otherwise the parsed YAML document. -/
def load_config (doc : Option Yaml) : Except GateError Yaml :=
  match doc with
  | none => .error .configNotFound
  | some data =>
    if !data.isMap then .error .notAMapping
    else if !hasMapAt data "stages" then .error .missingStages
    else if !hasMapAt data "gates" then .error .missingGates
    else if !hasStrAt data "current_stage" then .error .missingCurrentStage
    else .ok data

/-- `config["current_stage"]` (a string whenever `load_config` succeeded,
the only calling context). -/
def currentStageStr (config : Yaml) : String :=
  match config.get? "current_stage" with
  | some (.str s) => s
  | _ => ""

/-- `config["stages"]` (a mapping whenever `load_config` succeeded, the
only calling context). -/
def stagesOf (config : Yaml) : Yaml := (config.get? "stages").getD .null

/-- `config["gates"]` (a mapping whenever `load_config` succeeded, the
only calling context). -/
def gatesOf (config : Yaml) : Yaml := (config.get? "gates").getD .null

/-- Body of the `for gate_name, gate in gates.items()` loop of
`validate_gate_definitions`: raises at the first offending gate. -/
def validate_gates_list : List (String × Yaml) → Except GateError Unit
  | [] => .ok ()
  | (gate_name, gate) :: rest =>
    if !gate.isMap then .error (.gateNotAMapping gate_name)
    else if !isNonEmptyStrList (gate.getKD "command" .null) then
      .error (.invalidGateCommand gate_name)
    else validate_gates_list rest

/-- `validate_gate_definitions(config)`.  `config["gates"]` is a mapping
whenever `load_config` succeeded, which is the only calling context. -/
def validate_gate_definitions (config : Yaml) : Except GateError Unit :=
  validate_gates_list (gatesOf config).asMap

/-- `override_stage or config["current_stage"]` — Python `or` on strings:
the override wins exactly when non-empty. -/
def resolvedName (config : Yaml) (override_stage : String) : String :=
  if override_stage = "" then currentStageStr config else override_stage

/-- `resolve_stage(config, override_stage)`. -/
def resolve_stage (config : Yaml) (override_stage : String) :
    Except GateError (String × Yaml) :=
  let stage_name := resolvedName config override_stage
  match (stagesOf config).get? stage_name with
  | some stage_config =>
    if !stage_config.isMap then .error (.unknownStage stage_name)
    else if !isStrList (stage_config.getKD "required_gates" (.arr [])) then
      .error (.invalidRequiredGates stage_name)
    else .ok (stage_name, stage_config)
  | none => .error (.unknownStage stage_name)

/-- `gate_config["command"]` (validated earlier to be a non-empty list of
strings in every calling context). -/
def gateCommand (gate_config : Yaml) : List String :=
  (gate_config.getKD "command" (.arr [])).asStrList

/-- `run_gate(repo_root, gate_name, gate_config)`: launches the gate's
command as the `idx`-th child process and returns its exit status. -/
def run_gate (exec : Nat → List String → Int) (idx : Nat)
    (gate_config : Yaml) : Int :=
  exec idx (gateCommand gate_config)

/-- The `for gate_name in required_gate_names` execution loop of `main`:
strictly sequential, each gate running as the next child process; returns
the ordered trace of (gate name, exit status). -/
def run_gates (exec : Nat → List String → Int) (gates : Yaml) :
    List String → Nat → List (String × Int)
  | [], _ => []
  | gate_name :: rest, idx =>
    (gate_name, run_gate exec idx ((gates.get? gate_name).getD .null))
      :: run_gates exec gates rest (idx + 1)

/-- The final `[SUMMARY]` line. -/
inductive Summary where
  | failed (gates : List String)
  | passed (count : Nat)
deriving Repr, DecidableEq

/-- What aborts a run before the summary: a caught `ValueError` (exit 2),
or the unknown-gate cross-reference error printed in `main` (exit 2). -/
inductive RunError where
  | exc (e : GateError)
  | unknownGateReference (stage : String) (gates : List String)
deriving Repr, DecidableEq

/-- Command-line arguments of the runner (`--config` is absorbed into the
`doc` argument of `main_run`). -/
structure Args where
  stage : String := ""
  list : Bool := false
deriving Repr

/-- Observable outcome of one invocation: process exit code, ordered trace
of launched gate subprocesses with their exit statuses, structural error
(if any), and the printed summary (if the run reached it). -/
structure RunResult where
  exitCode : Nat
  trace : List (String × Int)
  error : Option RunError := none
  summary : Option Summary := none
deriving Repr

/-- The `try` block of `main`: load, validate gate definitions, resolve
the stage.  Any raised `ValueError` is caught there and turned into exit
code 2. -/
def pipeline (doc : Option Yaml) (override_stage : String) :
    Except GateError (Yaml × String × Yaml) := do
  let config ← load_config doc
  validate_gate_definitions config
  let r ← resolve_stage config override_stage
  pure (config, r)

/-- `required_gate_names: List[str] = stage_config.get("required_gates", [])`. -/
def requiredGateNames (stage_config : Yaml) : List String :=
  (stage_config.getKD "required_gates" (.arr [])).asStrList

/-- `unknown_gates = [gate for gate in required_gate_names if gate not in gates]`. -/
def unknownGates (config : Yaml) (stage_config : Yaml) : List String :=
  (requiredGateNames stage_config).filter fun g => ((gatesOf config).get? g).isNone

/-- The `failures` accumulator of `main`: names of the gates whose child
process exited non-zero, in execution order. -/
def failedGates (trace : List (String × Int)) : List String :=
  (trace.filter fun p => p.2 != 0).map Prod.fst

/-- The execution phase of `main` (after the `--list` branch): unknown-gate
cross-reference, sequential gate loop, failure aggregation and summary. -/
def execute_gates (config : Yaml) (stage_name : String) (stage_config : Yaml)
    (exec : Nat → List String → Int) : RunResult :=
  if !(unknownGates config stage_config).isEmpty then
    { exitCode := 2, trace := [],
      error := some (.unknownGateReference stage_name (unknownGates config stage_config)) }
  else
    let trace := run_gates exec (gatesOf config) (requiredGateNames stage_config) 0
    if !(failedGates trace).isEmpty then
      { exitCode := 1, trace := trace, summary := some (.failed (failedGates trace)) }
    else
      { exitCode := 0, trace := trace,
        summary := some (.passed (requiredGateNames stage_config).length) }

/-- `main()`. -/
def main_run (doc : Option Yaml) (args : Args)
    (exec : Nat → List String → Int) : RunResult :=
  match pipeline doc args.stage with
  | .error e => { exitCode := 2, trace := [], error := some (.exc e) }
  | .ok (config, stage_name, stage_config) =>
    if args.list then { exitCode := 0, trace := [] }
    else execute_gates config stage_name stage_config exec

/-! ### Concrete example configs (used to evaluate the model on inputs) -/

/-- The end-to-end example config from the spec: stage `planning` requires
gate `lint`, whose command is `["true"]`; plus a second stage with no
`required_gates` key. -/
def exampleConfig : Yaml := .map [
  ("current_stage", .str "planning"),
  ("stages", .map [
    ("planning", .map [("required_gates", .arr [.str "lint"])]),
    ("build", .map [("description", .str "build things")])]),
  ("gates", .map [("lint", .map [("command", .arr [.str "true"])])])]

/-- A config whose `planning` stage requires a gate name absent from the
gate catalog. -/
def danglingConfig : Yaml := .map [
  ("current_stage", .str "planning"),
  ("stages", .map [("planning", .map [("required_gates", .arr [.str "ghost"])])]),
  ("gates", .map [("lint", .map [("command", .arr [.str "true"])])])]

/-- A config whose active stage requires two gates `a` then `b`. -/
def twoGateConfig : Yaml := .map [
  ("current_stage", .str "build"),
  ("stages", .map [("build", .map [("required_gates", .arr [.str "a", .str "b"])])]),
  ("gates", .map [
    ("a", .map [("command", .arr [.str "cmd-a"])]),
    ("b", .map [("command", .arr [.str "cmd-b"])])])]

/-! ### Helper lemmas -/

theorem run_gates_length (exec : Nat → List String → Int) (gates : Yaml)
    (names : List String) (idx : Nat) :
    (run_gates exec gates names idx).length = names.length := by
  induction names generalizing idx with
  | nil => rfl
  | cons n rest ih => simp [run_gates, ih]

theorem run_gates_map_fst (exec : Nat → List String → Int) (gates : Yaml)
    (names : List String) (idx : Nat) :
    (run_gates exec gates names idx).map Prod.fst = names := by
  induction names generalizing idx with
  | nil => rfl
  | cons n rest ih => simp [run_gates, ih]

theorem run_gates_get (exec : Nat → List String → Int) (gates : Yaml)
    (names : List String) (idx : Nat) (i : Nat) (h : i < names.length)
    (h2 : i < (run_gates exec gates names idx).length) :
    (run_gates exec gates names idx).get ⟨i, h2⟩ =
      (names.get ⟨i, h⟩,
       exec (idx + i) (gateCommand ((gates.get? (names.get ⟨i, h⟩)).getD .null))) := by
  induction names generalizing idx i with
  | nil => exact absurd h (by simp)
  | cons n rest ih =>
    cases i with
    | zero => simp [run_gates, run_gate]
    | succ j =>
      have hj : j < rest.length := Nat.lt_of_succ_lt_succ h
      have hj2 : j < (run_gates exec gates rest (idx + 1)).length := by
        rw [run_gates_length]; exact hj
      simpa [run_gates, Nat.add_assoc, Nat.add_comm 1 j] using ih (idx + 1) j hj hj2

theorem pipeline_ok_iff (doc : Option Yaml) (s : String) (config : Yaml)
    (stage_name : String) (stage_config : Yaml) :
    pipeline doc s = .ok (config, stage_name, stage_config) ↔
      load_config doc = .ok config ∧ validate_gate_definitions config = .ok () ∧
      resolve_stage config s = .ok (stage_name, stage_config) := by
  constructor
  · intro h
    cases hl : load_config doc with
    | error e => simp [pipeline, hl, Except.bind, bind] at h
    | ok c =>
      cases hv : validate_gate_definitions c with
      | error e => simp [pipeline, hl, hv, Except.bind, bind] at h
      | ok u =>
        cases hr : resolve_stage c s with
        | error e => simp [pipeline, hl, hv, hr, Except.bind, bind] at h
        | ok r =>
          simp [pipeline, hl, hv, hr, Except.bind, bind, pure, Except.pure] at h
          obtain ⟨h1, h2⟩ := h
          subst h1
          refine ⟨rfl, by cases u; exact hv, ?_⟩
          rw [hr, ← h2]
  · rintro ⟨hl, hv, hr⟩
    simp [pipeline, hl, hv, hr, Except.bind, bind, pure, Except.pure]

theorem pipeline_error_of_load (doc : Option Yaml) (s : String) (e : GateError)
    (hl : load_config doc = .error e) : pipeline doc s = .error e := by
  simp [pipeline, hl, Except.bind, bind]

theorem pipeline_error_of_validate (doc : Option Yaml) (s : String) (config : Yaml)
    (e : GateError) (hl : load_config doc = .ok config)
    (hv : validate_gate_definitions config = .error e) : pipeline doc s = .error e := by
  simp [pipeline, hl, hv, Except.bind, bind]

theorem pipeline_error_of_resolve (doc : Option Yaml) (s : String) (config : Yaml)
    (e : GateError) (hl : load_config doc = .ok config)
    (hv : validate_gate_definitions config = .ok ())
    (hr : resolve_stage config s = .error e) : pipeline doc s = .error e := by
  simp [pipeline, hl, hv, hr, Except.bind, bind]

theorem main_run_of_pipeline_error (doc : Option Yaml) (args : Args)
    (exec : Nat → List String → Int) (e : GateError)
    (hp : pipeline doc args.stage = .error e) :
    main_run doc args exec =
      { exitCode := 2, trace := [], error := some (.exc e) } := by
  simp [main_run, hp]

theorem main_run_of_pipeline_ok_list (doc : Option Yaml) (args : Args)
    (exec : Nat → List String → Int) (config : Yaml) (stage_name : String)
    (stage_config : Yaml)
    (hp : pipeline doc args.stage = .ok (config, stage_name, stage_config))
    (hlist : args.list = true) :
    main_run doc args exec = { exitCode := 0, trace := [] } := by
  simp [main_run, hp, hlist]

theorem main_run_of_pipeline_ok_run (doc : Option Yaml) (args : Args)
    (exec : Nat → List String → Int) (config : Yaml) (stage_name : String)
    (stage_config : Yaml)
    (hp : pipeline doc args.stage = .ok (config, stage_name, stage_config))
    (hlist : args.list = false) :
    main_run doc args exec = execute_gates config stage_name stage_config exec := by
  simp [main_run, hp, hlist]

theorem failedGates_eq_nil_iff (t : List (String × Int)) :
    failedGates t = [] ↔ ∀ p ∈ t, p.2 = 0 := by
  simp [failedGates]

theorem mem_failedGates (t : List (String × Int)) (g : String) (c : Int)
    (hm : (g, c) ∈ t) (hc : c ≠ 0) : g ∈ failedGates t := by
  simp only [failedGates, List.mem_map, List.mem_filter]
  exact ⟨(g, c), ⟨hm, by simpa using hc⟩, rfl⟩

theorem execute_gates_unknown (config : Yaml) (stage_name : String)
    (stage_config : Yaml) (exec : Nat → List String → Int)
    (hne : unknownGates config stage_config ≠ []) :
    execute_gates config stage_name stage_config exec =
      { exitCode := 2, trace := [],
        error := some (.unknownGateReference stage_name (unknownGates config stage_config)) } := by
  have h : (unknownGates config stage_config).isEmpty = false := by
    simpa [List.isEmpty_iff] using hne
  simp [execute_gates, h]

theorem execute_gates_failed (config : Yaml) (stage_name : String)
    (stage_config : Yaml) (exec : Nat → List String → Int)
    (hknown : unknownGates config stage_config = [])
    (hf : failedGates (run_gates exec (gatesOf config) (requiredGateNames stage_config) 0) ≠ []) :
    execute_gates config stage_name stage_config exec =
      { exitCode := 1,
        trace := run_gates exec (gatesOf config) (requiredGateNames stage_config) 0,
        summary := some (.failed (failedGates
          (run_gates exec (gatesOf config) (requiredGateNames stage_config) 0))) } := by
  have h2 : (failedGates
      (run_gates exec (gatesOf config) (requiredGateNames stage_config) 0)).isEmpty = false := by
    simpa [List.isEmpty_iff] using hf
  simp [execute_gates, hknown, h2]

theorem execute_gates_passed (config : Yaml) (stage_name : String)
    (stage_config : Yaml) (exec : Nat → List String → Int)
    (hknown : unknownGates config stage_config = [])
    (hf : failedGates (run_gates exec (gatesOf config) (requiredGateNames stage_config) 0) = []) :
    execute_gates config stage_name stage_config exec =
      { exitCode := 0,
        trace := run_gates exec (gatesOf config) (requiredGateNames stage_config) 0,
        summary := some (.passed (requiredGateNames stage_config).length) } := by
  simp [execute_gates, hknown, hf]

theorem execute_gates_trace (config : Yaml) (stage_name : String)
    (stage_config : Yaml) (exec : Nat → List String → Int)
    (hknown : unknownGates config stage_config = []) :
    (execute_gates config stage_name stage_config exec).trace =
      run_gates exec (gatesOf config) (requiredGateNames stage_config) 0 := by
  by_cases hf : failedGates
      (run_gates exec (gatesOf config) (requiredGateNames stage_config) 0) = []
  · rw [execute_gates_passed config stage_name stage_config exec hknown hf]
  · rw [execute_gates_failed config stage_name stage_config exec hknown hf]

theorem validate_gates_list_first_invalid (pre : List (String × Yaml))
    (gate_name : String) (gate : Yaml) (rest : List (String × Yaml))
    (hpre : ∀ p ∈ pre, p.2.isMap = true ∧ isNonEmptyStrList (p.2.getKD "command" .null) = true)
    (hmap : gate.isMap = true)
    (hcmd : isNonEmptyStrList (gate.getKD "command" .null) = false) :
    validate_gates_list (pre ++ (gate_name, gate) :: rest) =
      .error (.invalidGateCommand gate_name) := by
  induction pre with
  | nil => simp [validate_gates_list, hmap, hcmd]
  | cons p pre ih =>
    obtain ⟨h1, h2⟩ := hpre p (List.mem_cons_self p pre)
    simpa [validate_gates_list, h1, h2] using
      ih fun q hq => hpre q (List.mem_cons_of_mem p hq)

/-! ### Claim theorems -/

/-- C5: for valid configs, resolving with the empty override returns
`(config.current_stage, stages[current_stage])`, and resolving with a
non-empty override `X` that is a key of `stages` returns `(X, stages[X])`
regardless of `current_stage` — the override takes precedence. -/
theorem resolve_stage_override_semantics :
    (∀ config stage_config : Yaml,
        (stagesOf config).get? (currentStageStr config) = some stage_config →
        stage_config.isMap = true →
        isStrList (stage_config.getKD "required_gates" (.arr [])) = true →
        resolve_stage config "" = .ok (currentStageStr config, stage_config)) ∧
    (∀ (config : Yaml) (x : String) (stage_config : Yaml), x ≠ "" →
        (stagesOf config).get? x = some stage_config →
        stage_config.isMap = true →
        isStrList (stage_config.getKD "required_gates" (.arr [])) = true →
        resolve_stage config x = .ok (x, stage_config)) := by
  constructor
  · intro config stage_config hget hmap hstr
    simp [resolve_stage, resolvedName, hget, hmap, hstr]
  · intro config x stage_config hx hget hmap hstr
    simp [resolve_stage, resolvedName, hx, hget, hmap, hstr]

/-- C9: a resolved stage name absent from the keys of `stages` makes
resolution fail with UnknownStage, and the process exits with code 2
having launched no gate subprocess. -/
theorem unknown_stage_rejected :
    (∀ (config : Yaml) (override : String),
        (stagesOf config).get? (resolvedName config override) = none →
        resolve_stage config override =
          .error (.unknownStage (resolvedName config override))) ∧
    (∀ (doc : Option Yaml) (args : Args) (exec : Nat → List String → Int) (s : String),
        pipeline doc args.stage = .error (.unknownStage s) →
        main_run doc args exec =
          { exitCode := 2, trace := [], error := some (.exc (.unknownStage s)) }) := by
  constructor
  · intro config override hget
    simp [resolve_stage, hget]
  · intro doc args exec s hp
    exact main_run_of_pipeline_error doc args exec _ hp

/-- C10 (implicit): a stage name that IS a key of `stages` still fails
resolution with the "Unknown lifecycle stage" error whenever its value is
not a mapping — resolution succeeding additionally requires
`stages[name]` to be a mapping. -/
theorem stage_value_not_mapping_rejected (config : Yaml) (override : String) (v : Yaml)
    (hget : (stagesOf config).get? (resolvedName config override) = some v)
    (hnm : v.isMap = false) :
    resolve_stage config override =
      .error (.unknownStage (resolvedName config override)) := by
  simp [resolve_stage, hget, hnm]

/-- C8: a resolved stage whose `required_gates` is present but not a list
of strings fails with InvalidStageDefinition; a stage with the key
entirely absent resolves to an empty required-gate list, and the run then
passes with zero gates executed. -/
theorem required_gates_typing :
    (∀ (config : Yaml) (override : String) (stage_config v : Yaml),
        (stagesOf config).get? (resolvedName config override) = some stage_config →
        stage_config.isMap = true →
        stage_config.get? "required_gates" = some v → isStrList v = false →
        resolve_stage config override =
          .error (.invalidRequiredGates (resolvedName config override))) ∧
    (∀ (config : Yaml) (override : String) (stage_config : Yaml),
        (stagesOf config).get? (resolvedName config override) = some stage_config →
        stage_config.isMap = true →
        stage_config.get? "required_gates" = none →
        resolve_stage config override =
          .ok (resolvedName config override, stage_config) ∧
        requiredGateNames stage_config = []) ∧
    (∀ (doc : Option Yaml) (args : Args) (exec : Nat → List String → Int)
        (config : Yaml) (stage_name : String) (stage_config : Yaml),
        pipeline doc args.stage = .ok (config, stage_name, stage_config) →
        args.list = false →
        stage_config.get? "required_gates" = none →
        main_run doc args exec =
          { exitCode := 0, trace := [], summary := some (.passed 0) }) := by
  refine ⟨?_, ?_, ?_⟩
  · intro config override stage_config v hget hmap hv hnotstr
    simp [resolve_stage, Yaml.getKD, hget, hmap, hv, hnotstr]
  · intro config override stage_config hget hmap hnone
    constructor
    · simp [resolve_stage, Yaml.getKD, hget, hmap, hnone, isStrList]
    · simp [requiredGateNames, Yaml.getKD, hnone, Yaml.asStrList]
  · intro doc args exec config stage_name stage_config hp hlist hnone
    rw [main_run_of_pipeline_ok_run doc args exec config stage_name stage_config hp hlist]
    have hreq : requiredGateNames stage_config = [] := by
      simp [requiredGateNames, Yaml.getKD, hnone, Yaml.asStrList]
    simp [execute_gates, unknownGates, hreq, run_gates, failedGates]

/-- C6: list mode never executes any declared gate command (the subprocess
trace is empty for every config, including configs with dangling gate
references), and whenever the config loads, validates and resolves, list
mode exits 0. -/
theorem list_mode_never_executes (doc : Option Yaml) (stage : String)
    (exec : Nat → List String → Int) :
    (main_run doc { stage := stage, list := true } exec).trace = [] ∧
    (∀ t, pipeline doc stage = .ok t →
        main_run doc { stage := stage, list := true } exec =
          { exitCode := 0, trace := [] }) := by
  constructor
  · cases hp : pipeline doc stage with
    | error e => simp [main_run, hp]
    | ok t => obtain ⟨c, n, sc⟩ := t; simp [main_run, hp]
  · rintro ⟨c, n, sc⟩ hp
    exact main_run_of_pipeline_ok_list doc _ exec c n sc hp rfl

/-- C2: if the resolved stage's `required_gates` contains a name absent
from the `gates` mapping, the run aborts with the UnknownGateReference
error and exit code 2, and zero gate subprocesses are launched. -/
theorem unknown_gate_reference_aborts (doc : Option Yaml) (args : Args)
    (exec : Nat → List String → Int) (config : Yaml) (stage_name : String)
    (stage_config : Yaml)
    (hp : pipeline doc args.stage = .ok (config, stage_name, stage_config))
    (hlist : args.list = false)
    (hmiss : ∃ g ∈ requiredGateNames stage_config, (gatesOf config).get? g = none) :
    main_run doc args exec =
      { exitCode := 2, trace := [],
        error := some (.unknownGateReference stage_name (unknownGates config stage_config)) } ∧
    unknownGates config stage_config ≠ [] := by
  have hne : unknownGates config stage_config ≠ [] := by
    obtain ⟨g, hg, hnone⟩ := hmiss
    intro h
    have hm : g ∈ unknownGates config stage_config := by
      simp only [unknownGates, List.mem_filter]
      exact ⟨hg, by simp [hnone]⟩
    rw [h] at hm
    exact absurd hm (List.not_mem_nil g)
  refine ⟨?_, hne⟩
  rw [main_run_of_pipeline_ok_run doc args exec config stage_name stage_config hp hlist]
  exact execute_gates_unknown config stage_name stage_config exec hne

/-- C3: whenever the run reaches the execution phase, the executed gate
sequence equals `required_gates` exactly — same names, same order — and
the i-th executed gate is the i-th launched child process (strictly
sequential execution). -/
theorem execution_order (doc : Option Yaml) (args : Args)
    (exec : Nat → List String → Int) (config : Yaml) (stage_name : String)
    (stage_config : Yaml)
    (hp : pipeline doc args.stage = .ok (config, stage_name, stage_config))
    (hlist : args.list = false)
    (hknown : unknownGates config stage_config = []) :
    (main_run doc args exec).trace.map Prod.fst = requiredGateNames stage_config ∧
    ∀ (i : Nat) (h1 : i < (main_run doc args exec).trace.length)
      (h2 : i < (requiredGateNames stage_config).length),
      (main_run doc args exec).trace.get ⟨i, h1⟩ =
        ((requiredGateNames stage_config).get ⟨i, h2⟩,
         exec i (gateCommand (((gatesOf config).get?
           ((requiredGateNames stage_config).get ⟨i, h2⟩)).getD .null))) := by
  have htr : (main_run doc args exec).trace =
      run_gates exec (gatesOf config) (requiredGateNames stage_config) 0 := by
    rw [main_run_of_pipeline_ok_run doc args exec config stage_name stage_config hp hlist]
    exact execute_gates_trace config stage_name stage_config exec hknown
  constructor
  · rw [htr]
    exact run_gates_map_fst exec (gatesOf config) (requiredGateNames stage_config) 0
  · intro i h1 h2
    have h1' : i < (run_gates exec (gatesOf config)
        (requiredGateNames stage_config) 0).length := htr ▸ h1
    have := run_gates_get exec (gatesOf config) (requiredGateNames stage_config) 0 i h2 h1'
    rw [List.get_of_eq htr ⟨i, h1⟩]
    simpa [Nat.zero_add] using this

/-- C4: a failing gate does not short-circuit the gates declared after it
(the trace still covers the whole `required_gates` list); afterwards the
summary names every failed gate and the run returns 1 if any failed, and
reports the count passed and returns 0 otherwise. -/
theorem failure_accumulation (doc : Option Yaml) (args : Args)
    (exec : Nat → List String → Int) (config : Yaml) (stage_name : String)
    (stage_config : Yaml)
    (hp : pipeline doc args.stage = .ok (config, stage_name, stage_config))
    (hlist : args.list = false)
    (hknown : unknownGates config stage_config = []) :
    (main_run doc args exec).trace.map Prod.fst = requiredGateNames stage_config ∧
    (failedGates (main_run doc args exec).trace ≠ [] →
        (main_run doc args exec).exitCode = 1 ∧
        (main_run doc args exec).summary =
          some (.failed (failedGates (main_run doc args exec).trace))) ∧
    (failedGates (main_run doc args exec).trace = [] →
        (main_run doc args exec).exitCode = 0 ∧
        (main_run doc args exec).summary =
          some (.passed (requiredGateNames stage_config).length)) ∧
    (∀ (g : String) (c : Int), (g, c) ∈ (main_run doc args exec).trace → c ≠ 0 →
        g ∈ failedGates (main_run doc args exec).trace) := by
  rw [main_run_of_pipeline_ok_run doc args exec config stage_name stage_config hp hlist]
  by_cases hf : failedGates
      (run_gates exec (gatesOf config) (requiredGateNames stage_config) 0) = []
  · rw [execute_gates_passed config stage_name stage_config exec hknown hf]
    refine ⟨run_gates_map_fst exec (gatesOf config) (requiredGateNames stage_config) 0,
      fun h => absurd hf h, fun _ => ⟨rfl, rfl⟩, ?_⟩
    intro g c hm hc
    exact mem_failedGates _ g c hm hc
  · rw [execute_gates_failed config stage_name stage_config exec hknown hf]
    refine ⟨run_gates_map_fst exec (gatesOf config) (requiredGateNames stage_config) 0,
      fun _ => ⟨rfl, rfl⟩, fun h => absurd h hf, ?_⟩
    intro g c hm hc
    exact mem_failedGates _ g c hm hc

/-- C7: a config that is not a mapping, or is missing `stages`, `gates` or
`current_stage` or has them with the wrong shape, fails loading with the
corresponding InvalidConfig error; a gate whose `command` is absent, not a
list, empty, or contains a non-string element fails the gate-definition
validation pass with an error naming that gate; and every such structural
failure happens before any gate subprocess is launched. -/
theorem config_shape_validation :
    (∀ d : Yaml, d.isMap = false → load_config (some d) = .error .notAMapping) ∧
    (∀ d : Yaml, d.isMap = true → hasMapAt d "stages" = false →
        load_config (some d) = .error .missingStages) ∧
    (∀ d : Yaml, d.isMap = true → hasMapAt d "stages" = true →
        hasMapAt d "gates" = false → load_config (some d) = .error .missingGates) ∧
    (∀ d : Yaml, d.isMap = true → hasMapAt d "stages" = true →
        hasMapAt d "gates" = true → hasStrAt d "current_stage" = false →
        load_config (some d) = .error .missingCurrentStage) ∧
    (∀ (config : Yaml) (pre : List (String × Yaml)) (gate_name : String)
        (gate : Yaml) (rest : List (String × Yaml)),
        (gatesOf config).asMap = pre ++ (gate_name, gate) :: rest →
        (∀ p ∈ pre, p.2.isMap = true ∧
          isNonEmptyStrList (p.2.getKD "command" .null) = true) →
        gate.isMap = true →
        isNonEmptyStrList (gate.getKD "command" .null) = false →
        validate_gate_definitions config = .error (.invalidGateCommand gate_name)) ∧
    (∀ (doc : Option Yaml) (args : Args) (exec : Nat → List String → Int)
        (e : GateError), pipeline doc args.stage = .error e →
        (main_run doc args exec).trace = [] ∧ (main_run doc args exec).exitCode = 2) := by
  refine ⟨?_, ?_, ?_, ?_, ?_, ?_⟩
  · intro d h; simp [load_config, h]
  · intro d h1 h2; simp [load_config, h1, h2]
  · intro d h1 h2 h3; simp [load_config, h1, h2, h3]
  · intro d h1 h2 h3 h4; simp [load_config, h1, h2, h3, h4]
  · intro config pre gate_name gate rest hsplit hpre hmap hcmd
    rw [validate_gate_definitions, hsplit]
    exact validate_gates_list_first_invalid pre gate_name gate rest hpre hmap hcmd
  · intro doc args exec e hp
    rw [main_run_of_pipeline_error doc args exec e hp]
    exact ⟨rfl, rfl⟩

/-- C1: the process exit code is 2 exactly on a configuration or
resolution error (missing/malformed config, invalid gate definition,
unknown stage, invalid stage definition, unknown gate reference), 1
exactly when the run is error-free and some launched gate exited non-zero,
and 0 exactly when the run is error-free and every launched gate passed
(which covers both list mode, where nothing is launched, and a full pass);
in particular list mode on a loadable config exits 0. -/
theorem exit_code_contract (doc : Option Yaml) (args : Args)
    (exec : Nat → List String → Int) :
    ((main_run doc args exec).exitCode = 2 ↔ (main_run doc args exec).error ≠ none) ∧
    ((main_run doc args exec).exitCode = 1 ↔
        (main_run doc args exec).error = none ∧
        ∃ p ∈ (main_run doc args exec).trace, p.2 ≠ 0) ∧
    ((main_run doc args exec).exitCode = 0 ↔
        (main_run doc args exec).error = none ∧
        ∀ p ∈ (main_run doc args exec).trace, p.2 = 0) ∧
    (∀ t, pipeline doc args.stage = .ok t → args.list = true →
        (main_run doc args exec).exitCode = 0) := by
  cases hp : pipeline doc args.stage with
  | error e =>
    rw [main_run_of_pipeline_error doc args exec e hp]
    refine ⟨by simp, by simp, by simp, ?_⟩
    intro t ht
    exact absurd ht (by simp)
  | ok t =>
    obtain ⟨config, stage_name, stage_config⟩ := t
    cases hlist : args.list with
    | true =>
      rw [main_run_of_pipeline_ok_list doc args exec config stage_name stage_config hp hlist]
      exact ⟨by simp, by simp, by simp, fun _ _ _ => rfl⟩
    | false =>
      rw [main_run_of_pipeline_ok_run doc args exec config stage_name stage_config hp hlist]
      by_cases hu : unknownGates config stage_config = []
      · by_cases hf : failedGates
            (run_gates exec (gatesOf config) (requiredGateNames stage_config) 0) = []
        · rw [execute_gates_passed config stage_name stage_config exec hu hf]
          have hall := (failedGates_eq_nil_iff _).mp hf
          refine ⟨by simp, ?_, ?_, fun t _ h => absurd h (by decide)⟩
          · constructor
            · intro h; exact absurd h (by simp)
            · rintro ⟨-, p, hm, hne⟩
              exact absurd (hall p hm) hne
          · exact ⟨fun _ => ⟨rfl, hall⟩, fun _ => rfl⟩
        · rw [execute_gates_failed config stage_name stage_config exec hu hf]
          have hex : ∃ p ∈ run_gates exec (gatesOf config)
              (requiredGateNames stage_config) 0, p.2 ≠ 0 := by
            by_contra hno
            push_neg at hno
            exact hf ((failedGates_eq_nil_iff _).mpr hno)
          refine ⟨by simp, ⟨fun _ => ⟨rfl, hex⟩, fun _ => rfl⟩, ?_,
            fun t _ h => absurd h (by decide)⟩
          constructor
          · intro h; exact absurd h (by simp)
          · rintro ⟨-, hall⟩
            exact absurd ((failedGates_eq_nil_iff _).mpr hall) hf
      · rw [execute_gates_unknown config stage_name stage_config exec hu]
        exact ⟨by simp, by simp, by simp, fun t _ h => absurd h (by decide)⟩

/-! ### Witnesses -/

/-- Witness for C5 at the example config. -/
theorem resolve_stage_override_semantics_witness :
    resolve_stage exampleConfig "" =
      .ok ("planning", .map [("required_gates", .arr [.str "lint"])]) ∧
    resolve_stage exampleConfig "build" =
      .ok ("build", .map [("description", .str "build things")]) := by
  constructor
  · exact resolve_stage_override_semantics.1 exampleConfig
      (.map [("required_gates", .arr [.str "lint"])]) rfl rfl rfl
  · exact resolve_stage_override_semantics.2 exampleConfig "build"
      (.map [("description", .str "build things")]) (by decide) rfl rfl rfl

/-- Witness for C9 at stage name `missing`. -/
theorem unknown_stage_rejected_witness :
    resolve_stage exampleConfig "missing" = .error (.unknownStage "missing") ∧
    main_run (some exampleConfig) { stage := "missing", list := false } (fun _ _ => 0) =
      { exitCode := 2, trace := [], error := some (.exc (.unknownStage "missing")) } := by
  constructor
  · exact unknown_stage_rejected.1 exampleConfig "missing" rfl
  · exact unknown_stage_rejected.2 (some exampleConfig)
      { stage := "missing", list := false } (fun _ _ => 0) "missing" rfl

/-- Witness for C10 at a stage whose value is a string. -/
theorem stage_value_not_mapping_rejected_witness :
    resolve_stage (.map [("current_stage", .str "s"),
      ("stages", .map [("s", .str "oops")]), ("gates", .map [])]) "" =
      .error (.unknownStage "s") := by
  exact stage_value_not_mapping_rejected (.map [("current_stage", .str "s"),
    ("stages", .map [("s", .str "oops")]), ("gates", .map [])]) "" (.str "oops") rfl rfl

/-- Witness for C8: ill-typed `required_gates` rejected; absent
`required_gates` resolves to the empty list and the run passes with zero
gates executed. -/
theorem required_gates_typing_witness :
    resolve_stage (.map [("current_stage", .str "s"),
      ("stages", .map [("s", .map [("required_gates", .str "nope")])]),
      ("gates", .map [])]) "" = .error (.invalidRequiredGates "s") ∧
    (resolve_stage exampleConfig "build" =
      .ok ("build", .map [("description", .str "build things")]) ∧
     requiredGateNames (.map [("description", .str "build things")]) = []) ∧
    main_run (some exampleConfig) { stage := "build", list := false } (fun _ _ => 0) =
      { exitCode := 0, trace := [], summary := some (.passed 0) } := by
  refine ⟨?_, ?_, ?_⟩
  · exact required_gates_typing.1 (.map [("current_stage", .str "s"),
      ("stages", .map [("s", .map [("required_gates", .str "nope")])]),
      ("gates", .map [])]) "" (.map [("required_gates", .str "nope")])
      (.str "nope") rfl rfl rfl rfl
  · exact required_gates_typing.2.1 exampleConfig "build"
      (.map [("description", .str "build things")]) rfl rfl rfl
  · exact required_gates_typing.2.2 (some exampleConfig)
      { stage := "build", list := false } (fun _ _ => 0) exampleConfig "build"
      (.map [("description", .str "build things")]) rfl rfl rfl

/-- Witness for C6 at a config with a dangling gate reference: list mode
launches nothing and exits 0. -/
theorem list_mode_never_executes_witness :
    (main_run (some danglingConfig) { stage := "", list := true }
      (fun _ _ => 0)).trace = [] ∧
    main_run (some danglingConfig) { stage := "", list := true } (fun _ _ => 0) =
      { exitCode := 0, trace := [] } := by
  refine ⟨(list_mode_never_executes (some danglingConfig) "" (fun _ _ => 0)).1, ?_⟩
  exact (list_mode_never_executes (some danglingConfig) "" (fun _ _ => 0)).2
    (danglingConfig, "planning", .map [("required_gates", .arr [.str "ghost"])]) rfl

/-- Witness for C2 at the dangling config: exit 2, no subprocess. -/
theorem unknown_gate_reference_aborts_witness :
    main_run (some danglingConfig) { stage := "", list := false } (fun _ _ => 0) =
      { exitCode := 2, trace := [],
        error := some (.unknownGateReference "planning" ["ghost"]) } ∧
    unknownGates danglingConfig (.map [("required_gates", .arr [.str "ghost"])]) ≠ [] := by
  exact unknown_gate_reference_aborts (some danglingConfig)
    { stage := "", list := false } (fun _ _ => 0) danglingConfig "planning"
    (.map [("required_gates", .arr [.str "ghost"])]) rfl rfl
    ⟨"ghost", by decide, rfl⟩

/-- Witness for C3 at the two-gate config: execution order is `a` then `b`. -/
theorem execution_order_witness :
    (main_run (some twoGateConfig) { stage := "", list := false }
      (fun i _ => (i : Int))).trace.map Prod.fst =
      requiredGateNames (.map [("required_gates", .arr [.str "a", .str "b"])]) := by
  exact (execution_order (some twoGateConfig) { stage := "", list := false }
    (fun i _ => (i : Int)) twoGateConfig "build"
    (.map [("required_gates", .arr [.str "a", .str "b"])]) rfl rfl rfl).1

/-- Witness for C4 at the two-gate config with both gates failing: both
still run, the summary names both, and the exit code is 1. -/
theorem failure_accumulation_witness :
    (main_run (some twoGateConfig) { stage := "", list := false }
      (fun _ _ => 1)).exitCode = 1 ∧
    (main_run (some twoGateConfig) { stage := "", list := false }
      (fun _ _ => 1)).summary =
      some (.failed (failedGates (main_run (some twoGateConfig)
        { stage := "", list := false } (fun _ _ => 1)).trace)) := by
  exact (failure_accumulation (some twoGateConfig) { stage := "", list := false }
    (fun _ _ => 1) twoGateConfig "build"
    (.map [("required_gates", .arr [.str "a", .str "b"])]) rfl rfl rfl).2.1 (by decide)

/-- Witness for C7 at concrete malformed configs. -/
theorem config_shape_validation_witness :
    load_config (some (.str "nope")) = .error .notAMapping ∧
    load_config (some (.map [])) = .error .missingStages ∧
    load_config (some (.map [("stages", .map [])])) = .error .missingGates ∧
    load_config (some (.map [("stages", .map []), ("gates", .map [])])) =
      .error .missingCurrentStage ∧
    validate_gate_definitions (.map [("stages", .map []),
      ("gates", .map [("g", .map [])]), ("current_stage", .str "s")]) =
      .error (.invalidGateCommand "g") ∧
    (main_run (some (.map [])) { stage := "", list := false } (fun _ _ => 0)).trace = [] ∧
    (main_run (some (.map [])) { stage := "", list := false } (fun _ _ => 0)).exitCode = 2 := by
  refine ⟨config_shape_validation.1 _ rfl,
    config_shape_validation.2.1 _ rfl rfl,
    config_shape_validation.2.2.1 _ rfl rfl rfl,
    config_shape_validation.2.2.2.1 _ rfl rfl rfl rfl, ?_, ?_, ?_⟩
  · exact config_shape_validation.2.2.2.2.1 (.map [("stages", .map []),
      ("gates", .map [("g", .map [])]), ("current_stage", .str "s")])
      [] "g" (.map []) [] rfl (by simp) rfl rfl
  · exact (config_shape_validation.2.2.2.2.2 (some (.map []))
      { stage := "", list := false } (fun _ _ => 0) .missingStages rfl).1
  · exact (config_shape_validation.2.2.2.2.2 (some (.map []))
      { stage := "", list := false } (fun _ _ => 0) .missingStages rfl).2

/-- Witness for C1: a full pass exits 0, and list mode on a loadable
config exits 0. -/
theorem exit_code_contract_witness :
    (main_run (some exampleConfig) { stage := "", list := false }
      (fun _ _ => 0)).exitCode = 0 ∧
    (main_run (some exampleConfig) { stage := "", list := true }
      (fun _ _ => 0)).exitCode = 0 := by
  constructor
  · exact (exit_code_contract (some exampleConfig) { stage := "", list := false }
      (fun _ _ => 0)).2.2.1.mpr ⟨rfl, by decide⟩
  · exact (exit_code_contract (some exampleConfig) { stage := "", list := true }
      (fun _ _ => 0)).2.2.2
      (exampleConfig, "planning", .map [("required_gates", .arr [.str "lint"])]) rfl rfl

end LifecycleGates
